import Mathlib

/-!
Verification development for the qualitative chemical analysis quiz tool.

The repository contains three variants of the same interactive program:
a flat-table variant (analysis-app-v1/cation_and_anion_qualitative_analysis.py),
a JSON-backed variant (analysis-app-v2/analysis_app.py), and older back-up
scripts (back-up/*.py).  The programs walk a user through decision-tree
questions and accumulate a list of detected ion symbols.

We embed the interactive procedures shallowly: console interaction is a
`Trace` holding the remaining scripted answers, the prompts issued so far and
the lines printed so far.  `get_user_input` consumes answers from the script,
re-prompting on invalid tokens exactly as the Python loop does; an exhausted
script yields `none` (the program would block waiting for input there).
-/

namespace QualAnal

/-- Python ASCII lowering of a single character (`str.lower` restricted to the
ASCII range, which covers every token the program compares against). -/
def asciiLowerChar (c : Char) : Char :=
  if 65 ≤ c.toNat ∧ c.toNat ≤ 90 then Char.ofNat (c.toNat + 32) else c

/-- Python ASCII uppering of a single character (`str.upper` on ASCII). -/
def asciiUpperChar (c : Char) : Char :=
  if 97 ≤ c.toNat ∧ c.toNat ≤ 122 then Char.ofNat (c.toNat - 32) else c

/-- `str.lower` (ASCII fragment). -/
def pyLower (s : String) : String := ⟨s.data.map asciiLowerChar⟩

/-- `str.upper` (ASCII fragment). -/
def pyUpper (s : String) : String := ⟨s.data.map asciiUpperChar⟩

/-- Python whitespace test used by `str.strip`. -/
def isPySpace (c : Char) : Bool := c.toNat = 32 || (9 ≤ c.toNat && c.toNat ≤ 13)

/-- `str.strip`: remove leading and trailing whitespace. -/
def pyStrip (s : String) : String :=
  ⟨((s.data.dropWhile isPySpace).reverse.dropWhile isPySpace).reverse⟩

/-- `s * n` for strings: `n` copies of `s` concatenated. -/
def pyRepeat (s : String) (n : Nat) : String := String.join (List.replicate n s)

/-- `str.center(width)` with CPython padding rule: the left margin is
`marg / 2 + (marg & width & 1)`. -/
def pyCenter (s : String) (width : Nat) : String :=
  let len := s.data.length
  if width ≤ len then s
  else
    let marg := width - len
    let left := marg / 2 + (marg &&& width &&& 1)
    ⟨List.replicate left ' '⟩ ++ s ++ ⟨List.replicate (marg - left) ' '⟩

/-- `MENU_WIDTH` constant of both app variants. -/
def MENU_WIDTH : Nat := 50

/-- The `"=" * MENU_WIDTH` separator used by headers and report files. -/
def sepLine : String := pyRepeat "=" MENU_WIDTH

/-- Console state of one scripted run: the not-yet-consumed answers, every
prompt issued so far (in order) and every line printed so far (in order). -/
structure Trace where
  queue : List String
  prompts : List String
  output : List String
deriving Repr, DecidableEq

/-- A fresh trace holding the scripted answers `q`. -/
def mkTrace (q : List String) : Trace := ⟨q, [], []⟩

/-- `print(s)`: record one printed line. -/
def pr (s : String) (t : Trace) : Trace := { t with output := t.output ++ [s] }

/-- A sequence of `print` calls. -/
def prs (ls : List String) (t : Trace) : Trace := { t with output := t.output ++ ls }

/-- `display_header(title)`: three prints. -/
def display_header (title : String) (t : Trace) : Trace :=
  prs ["\n" ++ sepLine, pyCenter title MENU_WIDTH, sepLine] t

/-- Loop body of `get_user_input`: issue the prompt, read the next scripted
answer (lowered and stripped like `input(prompt).lower().strip()`), return it
if it is among the valid options, otherwise print the error line and loop. -/
def askGo (prompt : String) (valid : List String) :
    List String → List String → List String → Option (String × Trace)
  | [], _, _ => none
  | a :: rest, ps, out =>
    let r := pyStrip (pyLower a)
    if valid.contains r then
      some (r, ⟨rest, ps ++ [prompt], out⟩)
    else
      askGo prompt valid rest (ps ++ [prompt])
        (out ++ ["Please enter one of: " ++ String.intercalate ", " valid])

/-- `get_user_input(prompt, valid_options)` over a trace. -/
def get_user_input (prompt : String) (valid : List String) (t : Trace) :
    Option (String × Trace) :=
  askGo prompt valid t.queue t.prompts t.output

/-- One record of `CATION_REACTIONS` / `ANION_REACTIONS` (v1 `ReactionData`). -/
structure ReactionData where
  test : String
  reaction : String
  reason : String
  group : String
deriving Repr, DecidableEq

/-- Lookup with Python dict-literal semantics: a later binding of the same key
overwrites an earlier one, so we take the last matching entry. -/
def dictFind (d : List (String × ReactionData)) (k : String) : Option ReactionData :=
  (d.reverse.find? (fun p => p.1 == k)).map (·.2)

/-- `CATION_REACTIONS` of the v1 program, in source order.  Note the key
`Pb²⁺` appears twice (Group I then Group II); Python keeps the later value. -/
def CATION_REACTIONS : List (String × ReactionData) := [
  ("Pb²⁺", ⟨"Hot water + K₂CrO₄",
    "Pb²⁺ + CrO₄²⁻ → PbCrO₄↓ (yellow)",
    "Forms insoluble lead chromate (Ksp = 2.8×10⁻¹³)", "I"⟩),
  ("Ag⁺", ⟨"NH₄OH dissolution + HNO₃",
    "AgCl + 2NH₃ → [Ag(NH₃)₂]⁺ (soluble complex)",
    "Forms diamminesilver(I) complex (Kf = 1.1×10⁷)", "I"⟩),
  ("Hg₂²⁺", ⟨"Black residue with NH₄OH",
    "Hg₂Cl₂ + 2NH₃ → Hg↓ + HgNH₂Cl↓ + NH₄⁺",
    "Disproportionation reaction", "I"⟩),
  ("Cu²⁺", ⟨"NH₄OH deep blue solution",
    "Cu²⁺ + 4NH₃ → [Cu(NH₃)₄]²⁺",
    "Forms tetraamminecopper(II) complex (λmax ≈ 600 nm)", "II"⟩),
  ("Pb²⁺", ⟨"K₂CrO₄ yellow precipitate",
    "Pb²⁺ + CrO₄²⁻ → PbCrO₄↓",
    "Confirmatory test after Group I separation", "II"⟩),
  ("Bi³⁺", ⟨"SnCl₂ reduction",
    "2Bi³⁺ + 3Sn²⁺ → 2Bi↓ + 3Sn⁴⁺",
    "Redox reaction (E° = 0.32V for Bi³⁺/Bi)", "II"⟩),
  ("As³⁺/⁵⁺", ⟨"(NH₄)₂Sx dissolution",
    "As₂S₃ + 3S²⁻ → 2AsS₃³⁻",
    "Forms soluble thioarsenite complex", "II"⟩),
  ("Fe³⁺", ⟨"K₄[Fe(CN)₆]",
    "4Fe³⁺ + 3[Fe(CN)₆]⁴⁻ → Fe₄[Fe(CN)₆]₃↓ (Prussian blue)",
    "Mixed-valence iron cyanide complex", "III"⟩),
  ("Al³⁺", ⟨"Aluminon reagent",
    "Al³⁺ + aluminon → red lake complex",
    "Chelation with aurintricarboxylic acid", "III"⟩),
  ("Cr³⁺", ⟨"NaOH/H₂O₂ + Pb(OAc)₂",
    "Cr³⁺ → CrO₄²⁻ → PbCrO₄↓ (yellow)",
    "Oxidation to chromate followed by precipitation", "III"⟩),
  ("Zn²⁺", ⟨"NaOH solubility",
    "Zn²⁺ + 2OH⁻ → Zn(OH)₂↓ → [Zn(OH)₄]²⁻",
    "Amphoteric behavior", "IV"⟩),
  ("Mn²⁺", ⟨"NaBiO₃ oxidation",
    "2Mn²⁺ + 5NaBiO₃ + 14H⁺ → 2MnO₄⁻ + 5Bi³⁺ + 5Na⁺ + 7H₂O",
    "Oxidation to purple permanganate", "IV"⟩),
  ("Ni²⁺", ⟨"Dimethylglyoxime",
    "Ni²⁺ + 2dmgH → [Ni(dmg)₂]↓ (red)",
    "Square planar chelate complex", "IV"⟩),
  ("Co²⁺", ⟨"NH₄SCN complex",
    "Co²⁺ + 4SCN⁻ → [Co(SCN)₄]²⁻ (blue)",
    "Tetrahedral thiocyanate complex", "IV"⟩),
  ("Ba²⁺", ⟨"Flame test (green)",
    "Ba²⁺ → Ba* (excited state)",
    "Emission at 524 nm (green)", "V"⟩),
  ("Sr²⁺", ⟨"Flame test (crimson)",
    "Sr²⁺ → Sr* (excited state)",
    "Emission at 650-680 nm (red)", "V"⟩),
  ("Ca²⁺", ⟨"Flame test (brick-red)",
    "Ca²⁺ → Ca* (excited state)",
    "Emission at 622 nm (orange-red)", "V"⟩),
  ("NH₄⁺", ⟨"NaOH + heat",
    "NH₄⁺ + OH⁻ → NH₃↑ + H₂O",
    "Ammonia gas detection", "VI"⟩),
  ("Mg²⁺", ⟨"Magneson reagent",
    "Mg²⁺ + magneson → blue lake complex",
    "Adsorption indicator reaction", "VI"⟩),
  ("Na⁺", ⟨"Flame test (yellow)",
    "Na⁺ → Na* (excited state)",
    "Emission at 589 nm (D-line)", "VI"⟩),
  ("K⁺", ⟨"Flame test (violet)",
    "K⁺ → K* (excited state)",
    "Emission at 766/770 nm", "VI"⟩)]

/-- `ANION_REACTIONS` of the v1 program, in source order. -/
def ANION_REACTIONS : List (String × ReactionData) := [
  ("CO₃²⁻", ⟨"Effervescence + lime water",
    "CO₃²⁻ + 2H⁺ → CO₂↑ + H₂O\nCO₂ + Ca(OH)₂ → CaCO₃↓ (milky)",
    "Carbonates release CO₂ gas that forms insoluble calcium carbonate (Ksp = 4.5×10⁻⁹)", "I"⟩),
  ("S²⁻", ⟨"Lead acetate paper",
    "S²⁻ + Pb²⁺ → PbS↓ (black, Ksp = 9.0×10⁻²⁹)",
    "Extremely low solubility allows detection at ppm levels", "I"⟩),
  ("NO₂⁻", ⟨"Brown fumes with acid",
    "2NO₂⁻ + 2H⁺ → NO₂↑ (brown) + NO↑ + H₂O",
    "Nitrous acid decomposition produces characteristic brown gas", "I"⟩),
  ("CH₃COO⁻", ⟨"Vinegar smell",
    "CH₃COO⁻ + H⁺ → CH₃COOH↑ (pKa = 4.76)",
    "Volatile acetic acid detected by odor", "I"⟩),
  ("Cl⁻", ⟨"AgNO₃ precipitation",
    "Ag⁺ + Cl⁻ → AgCl↓ (white, Ksp = 1.8×10⁻¹⁰)\nAgCl + 2NH₃ → [Ag(NH₃)₂]⁺ (soluble)",
    "Distinctive solubility behavior in ammonia", "II"⟩),
  ("Br⁻", ⟨"AgNO₃ precipitation",
    "Ag⁺ + Br⁻ → AgBr↓ (pale yellow, Ksp = 5.0×10⁻¹³)",
    "Intermediate solubility product distinguishes from other halides", "II"⟩),
  ("I⁻", ⟨"AgNO₃ precipitation",
    "Ag⁺ + I⁻ → AgI↓ (yellow, Ksp = 8.5×10⁻¹⁷)",
    "Most insoluble silver halide", "II"⟩),
  ("NO₃⁻", ⟨"Brown ring test",
    "NO₃⁻ + 3Fe²⁺ + 4H⁺ → NO↑ + 3Fe³⁺ + 2H₂O\nFe²⁺ + NO → [Fe(NO)]²⁺ (brown ring)",
    "Nitric oxide complexation with Fe²⁺ (E° = +0.96V)", "II"⟩),
  ("SO₄²⁻", ⟨"BaCl₂ in acid",
    "Ba²⁺ + SO₄²⁻ → BaSO₄↓ (white, Ksp = 1.1×10⁻¹⁰)",
    "Kinetically inert precipitate resistant to acid dissolution", "III"⟩),
  ("PO₄³⁻", ⟨"Ammonium molybdate",
    "PO₄³⁻ + 12MoO₄²⁻ + 3NH₄⁺ + 24H⁺ → (NH₄)₃PO₄·12MoO₃↓ (yellow)",
    "Heteropoly acid formation under acidic conditions", "III"⟩),
  ("BO₃³⁻", ⟨"Flame test",
    "BO₃³⁻ + H₂SO₄ + CH₃CH₂OH → B(OCH₂CH₃)₃ (green flame)",
    "Volatile boron ester produces characteristic green color", "III"⟩)]

/-- `ChemicalAnalyzer.print_reaction_details` of v1: five prints when the ion
is in the table, one otherwise. -/
def print_reaction_details (reactions : List (String × ReactionData)) (ion : String)
    (t : Trace) : Trace :=
  match dictFind reactions ion with
  | some data => prs ["\nReaction Details for " ++ ion ++ ":",
      "Test Method: " ++ data.test,
      "Chemical Equation:\n" ++ data.reaction,
      "Scientific Principle: " ++ data.reason,
      "Group: " ++ data.group] t
  | none => pr ("\nNo data available for " ++ ion) t

/-- Result of one `test_group_*` call at the analyzer level: the list returned
by the call, the analyzer's `detected_ions` after the trailing
`self.detected_ions.extend(detected)`, and the final console trace. -/
structure StepResult where
  detected : List String
  ions : List String
  trace : Trace
deriving Repr, DecidableEq

/-- Wrap a group-test body: the body computes the local `detected` list from
the analyzer's current `detected_ions` (`selfIons`) and the console trace; the
wrapper performs the `self.detected_ions.extend(detected)` at the end. -/
def extendRun (core : List String → Trace → Option (List String × Trace))
    (selfIons : List String) (t : Trace) : Option StepResult :=
  (core selfIons t).map (fun p => ⟨p.1, selfIons ++ p.1, p.2⟩)

/-- Body of `CationAnalyzer.test_group_i` (v1). -/
def cationTestGroupI_core (selfIons : List String) (t0 : Trace) :
    Option (List String × Trace) :=
  let t1 := pr "Add dilute HCl to the solution and observe."
    (display_header "GROUP I: Dilute HCl Test" t0)
  match get_user_input "Did a white precipitate form? (y/n): " ["y", "n"] t1 with
  | none => none
  | some (a1, t2) =>
    if a1 == "y" then
      let t3 := prs ["\nPerforming confirmatory tests on the precipitate...",
        "\n1. Testing for Pb²⁺:",
        "a. Decant the solution and wash the precipitate with hot water",
        "b. Add a few drops of K₂CrO₄ solution to the hot water extract"] t2
      match get_user_input "Does a yellow precipitate form? (y/n): " ["y", "n"] t3 with
      | none => none
      | some (a2, t4) =>
        if a2 == "y" then
          let t5 := print_reaction_details CATION_REACTIONS "Pb²⁺"
            (pr "-> Pb²⁺ confirmed: Yellow PbCrO₄ precipitate" t4)
          let t6 := prs ["\n2. Testing remaining precipitate for Ag⁺ and Hg₂²⁺:",
            "Add NH₄OH to the remaining precipitate"] t5
          match get_user_input "Does the precipitate dissolve completely? (y/n): " ["y", "n"] t6 with
          | none => none
          | some (a3, t7) =>
            if a3 == "y" then
              let t8 := pr "a. Acidify the solution with HNO₃" t7
              match get_user_input "Does a white precipitate reform? (y/n): " ["y", "n"] t8 with
              | none => none
              | some (a4, t9) =>
                if a4 == "y" then
                  let t10 := print_reaction_details CATION_REACTIONS "Ag⁺"
                    (pr "-> Ag⁺ confirmed: Soluble in NH₄OH, reprecipitates with HNO₃" t9)
                  some (["Pb²⁺", "Ag⁺"], t10)
                else some (["Pb²⁺"], t9)
            else
              match get_user_input "Does the precipitate turn black/gray? (y/n): " ["y", "n"] t7 with
              | none => none
              | some (a4, t9) =>
                if a4 == "y" then
                  let t10 := print_reaction_details CATION_REACTIONS "Hg₂²⁺"
                    (pr "-> Hg₂²⁺ confirmed: Black/gray residue with NH₄OH" t9)
                  some (["Pb²⁺", "Hg₂²⁺"], t10)
                else some (["Pb²⁺"], t9)
        else
          let t5 := prs ["\nTesting precipitate directly for Ag⁺ and Hg₂²⁺:",
            "Add NH₄OH to the precipitate"] t4
          match get_user_input "Does the precipitate dissolve completely? (y/n): " ["y", "n"] t5 with
          | none => none
          | some (a3, t7) =>
            if a3 == "y" then
              let t8 := pr "a. Acidify the solution with HNO₃" t7
              match get_user_input "Does a white precipitate reform? (y/n): " ["y", "n"] t8 with
              | none => none
              | some (a4, t9) =>
                if a4 == "y" then
                  let t10 := print_reaction_details CATION_REACTIONS "Ag⁺"
                    (pr "-> Ag⁺ confirmed: Soluble in NH₄OH, reprecipitates with HNO₃" t9)
                  some (["Ag⁺"], t10)
                else some ([], t9)
            else
              match get_user_input "Does the precipitate turn black/gray? (y/n): " ["y", "n"] t7 with
              | none => none
              | some (a4, t9) =>
                if a4 == "y" then
                  let t10 := print_reaction_details CATION_REACTIONS "Hg₂²⁺"
                    (pr "-> Hg₂²⁺ confirmed: Black/gray residue with NH₄OH" t9)
                  some (["Hg₂²⁺"], t10)
                else some ([], t9)
    else
      some ([], pr "No Group I cations detected." t2)

/-- `CationAnalyzer.test_group_i` including the trailing `extend`. -/
def cationTestGroupI : List String → Trace → Option StepResult :=
  extendRun cationTestGroupI_core

/-- Group II arsenic block (`if color == 'yellow'` body, v1 lines 462-470). -/
def gII_arsenicBlock (t0 : Trace) : Option (List String × Trace) :=
  let t1 := prs ["\n1. Testing for As³⁺/⁵⁺:",
    "a. Treat precipitate with (NH₄)₂Sx solution"] t0
  match get_user_input "Does the precipitate dissolve? (y/n): " ["y", "n"] t1 with
  | none => none
  | some (a, t2) =>
    if a == "y" then
      let t3 := pr "b. Acidify with dilute HCl" t2
      match get_user_input "Does a yellow precipitate reform? (y/n): " ["y", "n"] t3 with
      | none => none
      | some (b, t4) =>
        if b == "y" then
          some (["As³⁺/⁵⁺"], print_reaction_details CATION_REACTIONS "As³⁺/⁵⁺"
            (pr "-> As³⁺/⁵⁺ confirmed: Yellow As₂S₃" t4))
        else some ([], t4)
    else some ([], t2)

/-- Group II copper block (`if color == 'black'` body, v1 lines 473-480). -/
def gII_copperBlock (t0 : Trace) : Option (List String × Trace) :=
  let t1 := prs ["\n2. Testing for Cu²⁺:",
    "a. Dissolve some precipitate in HNO₃",
    "b. Add excess NH₄OH to the solution"] t0
  match get_user_input "Does the solution turn deep blue? (y/n): " ["y", "n"] t1 with
  | none => none
  | some (a, t2) =>
    if a == "y" then
      some (["Cu²⁺"], print_reaction_details CATION_REACTIONS "Cu²⁺"
        (pr "-> Cu²⁺ confirmed: [Cu(NH₃)₄]²⁺ complex" t2))
    else some ([], t2)

/-- Group II bismuth block (`if color in ['black', 'brown']` body, v1 483-490). -/
def gII_bismuthBlock (t0 : Trace) : Option (List String × Trace) :=
  let t1 := prs ["\n3. Testing for Bi³⁺:",
    "a. Dissolve some precipitate in HNO₃",
    "b. Add SnCl₂ solution dropwise"] t0
  match get_user_input "Does a black precipitate form? (y/n): " ["y", "n"] t1 with
  | none => none
  | some (a, t2) =>
    if a == "y" then
      some (["Bi³⁺"], print_reaction_details CATION_REACTIONS "Bi³⁺"
        (pr "-> Bi³⁺ confirmed: Black Bi metal" t2))
    else some ([], t2)

/-- Group II lead block (body of the `color == 'white' and "Pb²⁺" not in
self.detected_ions` branch, v1 lines 493-500). -/
def gII_leadBlock (t0 : Trace) : Option (List String × Trace) :=
  let t1 := prs ["\n4. Testing for Pb²⁺:",
    "a. Dissolve precipitate in hot dilute HNO₃",
    "b. Add K₂CrO₄ solution"] t0
  match get_user_input "Does a yellow precipitate form? (y/n): " ["y", "n"] t1 with
  | none => none
  | some (a, t2) =>
    if a == "y" then
      some (["Pb²⁺"], print_reaction_details CATION_REACTIONS "Pb²⁺"
        (pr "-> Pb²⁺ confirmed: Yellow PbCrO₄" t2))
    else some ([], t2)

/-- Body of `CationAnalyzer.test_group_ii` (v1).  The four confirmatory blocks
run in source order; each is guarded by its color condition, and the lead
block additionally by `"Pb²⁺" not in self.detected_ions`. -/
def cationTestGroupII_core (selfIons : List String) (t0 : Trace) :
    Option (List String × Trace) :=
  let t1 := pr "Pass H₂S gas through the acidic solution and observe."
    (display_header "GROUP II: H₂S in Acidic Medium (0.3M HCl)" t0)
  match get_user_input "Did a precipitate form? (y/n): " ["y", "n"] t1 with
  | none => none
  | some (a1, t2) =>
    if a1 == "y" then
      let t3 := pr "\nObserve precipitate color:" t2
      match get_user_input "Color? (black/brown/yellow/white): "
          ["black", "brown", "yellow", "white"] t3 with
      | none => none
      | some (color, t4) =>
        let t5 := pr "\nPerforming confirmatory tests..." t4
        match (if color == "yellow" then gII_arsenicBlock t5 else some ([], t5)) with
        | none => none
        | some (d1, t6) =>
          match (if color == "black" then gII_copperBlock t6 else some ([], t6)) with
          | none => none
          | some (d2, t7) =>
            match (if color == "black" || color == "brown" then gII_bismuthBlock t7
                else some ([], t7)) with
            | none => none
            | some (d3, t8) =>
              match (if color == "white" && !(selfIons.contains "Pb²⁺")
                  then gII_leadBlock t8 else some ([], t8)) with
              | none => none
              | some (d4, t9) => some (d1 ++ d2 ++ d3 ++ d4, t9)
    else
      some ([], pr "No Group II cations detected." t2)

/-- `CationAnalyzer.test_group_ii` including the trailing `extend`. -/
def cationTestGroupII : List String → Trace → Option StepResult :=
  extendRun cationTestGroupII_core

/-- Group III iron block (`if color == 'red-brown'` body, v1 lines 521-528). -/
def gIII_ironBlock (t0 : Trace) : Option (List String × Trace) :=
  let t1 := prs ["\n1. Testing for Fe³⁺:",
    "a. Dissolve some precipitate in dilute HCl",
    "b. Add K₄[Fe(CN)₆] solution"] t0
  match get_user_input "Does a dark blue precipitate form? (y/n): " ["y", "n"] t1 with
  | none => none
  | some (a, t2) =>
    if a == "y" then
      some (["Fe³⁺"], print_reaction_details CATION_REACTIONS "Fe³⁺"
        (pr "-> Fe³⁺ confirmed: Prussian blue" t2))
    else some ([], t2)

/-- Group III aluminum block (`if color == 'white'` body, v1 lines 531-538). -/
def gIII_aluminumBlock (t0 : Trace) : Option (List String × Trace) :=
  let t1 := prs ["\n2. Testing for Al³⁺:",
    "a. Dissolve some precipitate in dilute HCl",
    "b. Add aluminon reagent and make slightly basic with NH₄OH"] t0
  match get_user_input "Does a red lake form? (y/n): " ["y", "n"] t1 with
  | none => none
  | some (a, t2) =>
    if a == "y" then
      some (["Al³⁺"], print_reaction_details CATION_REACTIONS "Al³⁺"
        (pr "-> Al³⁺ confirmed: Red lake complex" t2))
    else some ([], t2)

/-- Group III chromium block (`if color == 'green'` body, v1 lines 541-549). -/
def gIII_chromiumBlock (t0 : Trace) : Option (List String × Trace) :=
  let t1 := prs ["\n3. Testing for Cr³⁺:",
    "a. Boil with NaOH and H₂O₂",
    "b. Acidify with CH₃COOH",
    "c. Add Pb(OAc)₂ solution"] t0
  match get_user_input "Does a yellow precipitate form? (y/n): " ["y", "n"] t1 with
  | none => none
  | some (a, t2) =>
    if a == "y" then
      some (["Cr³⁺"], print_reaction_details CATION_REACTIONS "Cr³⁺"
        (pr "-> Cr³⁺ confirmed: Yellow PbCrO₄" t2))
    else some ([], t2)

/-- Body of `CationAnalyzer.test_group_iii` (v1). -/
def cationTestGroupIII_core (selfIons : List String) (t0 : Trace) :
    Option (List String × Trace) :=
  let t1 := pr "Add NH₄Cl and then NH₄OH to the solution and observe."
    (display_header "GROUP III: NH₄OH/NH₄Cl" t0)
  match get_user_input "Did a precipitate form? (y/n): " ["y", "n"] t1 with
  | none => none
  | some (a1, t2) =>
    if a1 == "y" then
      let t3 := pr "\nObserve precipitate color:" t2
      match get_user_input "Color? (red-brown/white/green): "
          ["red-brown", "white", "green"] t3 with
      | none => none
      | some (color, t4) =>
        let t5 := pr "\nPerforming confirmatory tests..." t4
        match (if color == "red-brown" then gIII_ironBlock t5 else some ([], t5)) with
        | none => none
        | some (d1, t6) =>
          match (if color == "white" then gIII_aluminumBlock t6 else some ([], t6)) with
          | none => none
          | some (d2, t7) =>
            match (if color == "green" then gIII_chromiumBlock t7 else some ([], t7)) with
            | none => none
            | some (d3, t8) => some (d1 ++ d2 ++ d3, t8)
    else
      some ([], pr "No Group III cations detected." t2)

/-- `CationAnalyzer.test_group_iii` including the trailing `extend`. -/
def cationTestGroupIII : List String → Trace → Option StepResult :=
  extendRun cationTestGroupIII_core

/-- Group IV zinc block (`if color == 'white'` body, v1 lines 571-580). -/
def gIV_zincBlock (t0 : Trace) : Option (List String × Trace) :=
  let t1 := prs ["\n1. Testing for Zn²⁺:",
    "a. Dissolve precipitate in dilute HCl",
    "b. Add NaOH solution dropwise",
    "   Observe: White precipitate forms initially",
    "c. Add excess NaOH"] t0
  match get_user_input "Does the precipitate dissolve? (y/n): " ["y", "n"] t1 with
  | none => none
  | some (a, t2) =>
    if a == "y" then
      some (["Zn²⁺"], print_reaction_details CATION_REACTIONS "Zn²⁺"
        (pr "-> Zn²⁺ confirmed: Amphoteric behavior" t2))
    else some ([], t2)

/-- Group IV manganese block (`if color == 'flesh-pink'` body, v1 583-590). -/
def gIV_manganeseBlock (t0 : Trace) : Option (List String × Trace) :=
  let t1 := prs ["\n2. Testing for Mn²⁺:",
    "a. Dissolve some precipitate in dilute HNO₃",
    "b. Add solid NaBiO₃ and stir"] t0
  match get_user_input "Does the solution turn purple? (y/n): " ["y", "n"] t1 with
  | none => none
  | some (a, t2) =>
    if a == "y" then
      some (["Mn²⁺"], print_reaction_details CATION_REACTIONS "Mn²⁺"
        (pr "-> Mn²⁺ confirmed: MnO₄⁻ formation" t2))
    else some ([], t2)

/-- Group IV nickel block (first `if color == 'black'` body, v1 593-600). -/
def gIV_nickelBlock (t0 : Trace) : Option (List String × Trace) :=
  let t1 := prs ["\n3. Testing for Ni²⁺:",
    "a. Dissolve some precipitate in aqua regia",
    "b. Add dimethylglyoxime in ammoniacal solution"] t0
  match get_user_input "Does a bright red precipitate form? (y/n): " ["y", "n"] t1 with
  | none => none
  | some (a, t2) =>
    if a == "y" then
      some (["Ni²⁺"], print_reaction_details CATION_REACTIONS "Ni²⁺"
        (pr "-> Ni²⁺ confirmed: Nickel-dimethylglyoxime complex" t2))
    else some ([], t2)

/-- Group IV cobalt block (second `if color == 'black'` body, v1 603-611). -/
def gIV_cobaltBlock (t0 : Trace) : Option (List String × Trace) :=
  let t1 := prs ["\n4. Testing for Co²⁺:",
    "a. Dissolve some precipitate in dilute HCl",
    "b. Add solid NH₄SCN",
    "c. Add amyl alcohol and shake"] t0
  match get_user_input "Does the organic layer turn blue? (y/n): " ["y", "n"] t1 with
  | none => none
  | some (a, t2) =>
    if a == "y" then
      some (["Co²⁺"], print_reaction_details CATION_REACTIONS "Co²⁺"
        (pr "-> Co²⁺ confirmed: [Co(SCN)₄]²⁻ complex" t2))
    else some ([], t2)

/-- Body of `CationAnalyzer.test_group_iv` (v1).  Note both the nickel and the
cobalt block are guarded by `color == 'black'`: a black precipitate runs two
confirmatory sub-branches. -/
def cationTestGroupIV_core (selfIons : List String) (t0 : Trace) :
    Option (List String × Trace) :=
  let t1 := prs ["Make the solution slightly basic with NH₃/NH₄Cl buffer.",
    "Pass H₂S gas through the solution and observe."]
    (display_header "GROUP IV: H₂S in Basic Medium (NH₃/NH₄Cl)" t0)
  match get_user_input "Did a precipitate form? (y/n): " ["y", "n"] t1 with
  | none => none
  | some (a1, t2) =>
    if a1 == "y" then
      let t3 := pr "\nObserve precipitate color:" t2
      match get_user_input "Color? (white/flesh-pink/black): "
          ["white", "flesh-pink", "black"] t3 with
      | none => none
      | some (color, t4) =>
        let t5 := pr "\nPerforming confirmatory tests..." t4
        match (if color == "white" then gIV_zincBlock t5 else some ([], t5)) with
        | none => none
        | some (d1, t6) =>
          match (if color == "flesh-pink" then gIV_manganeseBlock t6 else some ([], t6)) with
          | none => none
          | some (d2, t7) =>
            match (if color == "black" then gIV_nickelBlock t7 else some ([], t7)) with
            | none => none
            | some (d3, t8) =>
              match (if color == "black" then gIV_cobaltBlock t8 else some ([], t8)) with
              | none => none
              | some (d4, t9) => some (d1 ++ d2 ++ d3 ++ d4, t9)
    else
      some ([], pr "No Group IV cations detected." t2)

/-- `CationAnalyzer.test_group_iv` including the trailing `extend`. -/
def cationTestGroupIV : List String → Trace → Option StepResult :=
  extendRun cationTestGroupIV_core

/-- Group V strontium block (`if flame_color == 'red'` body, v1 639-646). -/
def gV_strontiumBlock (t0 : Trace) : Option (List String × Trace) :=
  let t1 := prs ["\nConfirmatory test for Sr²⁺:",
    "a. Make solution slightly acidic with CH₃COOH",
    "b. Add saturated CaSO₄ solution"] t0
  match get_user_input "Does a white precipitate form slowly? (y/n): " ["y", "n"] t1 with
  | none => none
  | some (a, t2) =>
    if a == "y" then
      some (["Sr²⁺"], print_reaction_details CATION_REACTIONS "Sr²⁺"
        (pr "-> Sr²⁺ confirmed: SrSO₄ precipitation" t2))
    else some ([], t2)

/-- Group V calcium block (`if flame_color == 'orange'` body, v1 648-654). -/
def gV_calciumBlock (t0 : Trace) : Option (List String × Trace) :=
  let t1 := prs ["\nConfirmatory test for Ca²⁺:",
    "a. Add (NH₄)₂C₂O₄ solution"] t0
  match get_user_input "Does a white precipitate form? (y/n): " ["y", "n"] t1 with
  | none => none
  | some (a, t2) =>
    if a == "y" then
      some (["Ca²⁺"], print_reaction_details CATION_REACTIONS "Ca²⁺"
        (pr "-> Ca²⁺ confirmed: CaC₂O₄ precipitation" t2))
    else some ([], t2)

/-- Body of `CationAnalyzer.test_group_v` (v1).  A green flame confirms Ba²⁺
directly; red and orange flames each lead to one confirmatory question. -/
def cationTestGroupV_core (selfIons : List String) (t0 : Trace) :
    Option (List String × Trace) :=
  let t1 := prs ["Add NH₄Cl and NH₄OH to the solution.",
    "Then add (NH₄)₂CO₃ solution and warm slightly."]
    (display_header "GROUP V: (NH₄)₂CO₃ in NH₃" t0)
  match get_user_input "Did a white precipitate form? (y/n): " ["y", "n"] t1 with
  | none => none
  | some (a1, t2) =>
    if a1 == "y" then
      let t3 := prs ["\nPerform flame tests on original solution:",
        "Clean platinum wire, dip in conc. HCl, then in test solution.",
        "Introduce into flame and observe color."] t2
      match get_user_input "Flame color? (green/red/orange/none): "
          ["green", "red", "orange", "none"] t3 with
      | none => none
      | some (flame, t4) =>
        let bar : List String × Trace :=
          if flame == "green" then
            (["Ba²⁺"], print_reaction_details CATION_REACTIONS "Ba²⁺"
              (pr "-> Ba²⁺ confirmed: Green flame (524 nm)" t4))
          else ([], t4)
        match (if flame == "red" then gV_strontiumBlock bar.2 else some ([], bar.2)) with
        | none => none
        | some (d2, t6) =>
          match (if flame == "orange" then gV_calciumBlock t6 else some ([], t6)) with
          | none => none
          | some (d3, t7) => some (bar.1 ++ d2 ++ d3, t7)
    else
      some ([], pr "No Group V cations detected." t2)

/-- `CationAnalyzer.test_group_v` including the trailing `extend`. -/
def cationTestGroupV : List String → Trace → Option StepResult :=
  extendRun cationTestGroupV_core

/-- Body of `CationAnalyzer.test_group_vi` (v1).  There is no gating
precipitate question: the four tests always run in order, and the
"No Group VI cations detected." line is printed only when nothing was
detected by any of them. -/
def cationTestGroupVI_core (selfIons : List String) (t0 : Trace) :
    Option (List String × Trace) :=
  let t1 := prs ["\n1. Testing for NH₄⁺:",
    "a. Take original solution in test tube",
    "b. Add NaOH solution and warm gently"]
    (display_header "GROUP VI: Soluble Group" t0)
  match get_user_input "Does ammonia gas evolve (test with moist red litmus)? (y/n): "
      ["y", "n"] t1 with
  | none => none
  | some (a1, t2) =>
    let amm : List String × Trace :=
      if a1 == "y" then
        (["NH₄⁺"], print_reaction_details CATION_REACTIONS "NH₄⁺"
          (pr "-> NH₄⁺ confirmed: NH₃ gas detected" t2))
      else ([], t2)
    let t3 := prs ["\n2. Testing for Mg²⁺:",
      "a. Take fresh solution, add NH₄Cl and NH₄OH",
      "b. Add disodium hydrogen phosphate solution"] amm.2
    match get_user_input "Does a white crystalline precipitate form? (y/n): "
        ["y", "n"] t3 with
    | none => none
    | some (a2, t4) =>
      let mag : List String × Trace :=
        if a2 == "y" then
          (["Mg²⁺"], print_reaction_details CATION_REACTIONS "Mg²⁺"
            (pr "-> Mg²⁺ confirmed: MgNH₄PO₄ precipitation" t4))
        else ([], t4)
      let t5 := prs ["\n3. Testing for Na⁺:",
        "Perform flame test (clean wire, dip in solution):"] mag.2
      match get_user_input "Flame color? (yellow/none): " ["yellow", "none"] t5 with
      | none => none
      | some (f1, t6) =>
        match (if f1 == "yellow" then
            (let t7 := pr "Confirm with cobalt glass:" t6
             match get_user_input "Does yellow color disappear through cobalt glass? (y/n): "
                 ["y", "n"] t7 with
             | none => none
             | some (a3, t8) =>
               if a3 == "y" then
                 some ((["Na⁺"] : List String),
                   print_reaction_details CATION_REACTIONS "Na⁺"
                     (pr "-> Na⁺ confirmed: Persistent yellow flame" t8))
               else some ([], t8))
          else some ([], t6)) with
        | none => none
        | some (dNa, t9) =>
          let t10 := prs ["\n4. Testing for K⁺:",
            "Perform flame test through cobalt glass:"] t9
          match get_user_input "Flame color through cobalt glass? (violet/none): "
              ["violet", "none"] t10 with
          | none => none
          | some (f2, t11) =>
            match (if f2 == "violet" then
                (let t12 := prs ["Confirmatory test:",
                  "a. Add sodium cobaltinitrite solution"] t11
                 match get_user_input "Does a yellow precipitate form? (y/n): "
                     ["y", "n"] t12 with
                 | none => none
                 | some (a4, t13) =>
                   if a4 == "y" then
                     some ((["K⁺"] : List String),
                       print_reaction_details CATION_REACTIONS "K⁺"
                         (pr "-> K⁺ confirmed: K₂Na[Co(NO₂)₆] precipitation" t13))
                   else some ([], t13))
              else some ([], t11)) with
            | none => none
            | some (dK, t14) =>
              let detected := amm.1 ++ mag.1 ++ dNa ++ dK
              if detected.isEmpty then
                some (detected, pr "No Group VI cations detected." t14)
              else
                some (detected, t14)

/-- `CationAnalyzer.test_group_vi` including the trailing `extend`. -/
def cationTestGroupVI : List String → Trace → Option StepResult :=
  extendRun cationTestGroupVI_core

/-- Body of `AnionAnalyzer.test_group_i` (v1).  After the gating gas question,
the four tests (carbonate, sulfide, nitrite, acetate) always run in order. -/
def anionTestGroupI_core (selfIons : List String) (t0 : Trace) :
    Option (List String × Trace) :=
  let t1 := pr "Procedure: Take 2mL test solution in test tube, add 1mL dilute H₂SO₄"
    (display_header "GROUP I: Dilute H₂SO₄ Tests" t0)
  match get_user_input "Is there effervescence/gas evolution? (y/n): " ["y", "n"] t1 with
  | none => none
  | some (a1, t2) =>
    if a1 == "y" then
      let t3 := prs ["\nObserve carefully:",
        "1. Color and smell of gas",
        "2. Effect on lime water",
        "3. Effect on lead acetate paper",
        "\n1. Testing for CO₃²⁻:",
        "a. Pass evolved gas through lime water (Ca(OH)₂)"] t2
      match get_user_input "Does lime water turn milky? (y/n): " ["y", "n"] t3 with
      | none => none
      | some (b1, t4) =>
        let carb : List String × Trace :=
          if b1 == "y" then
            (["CO₃²⁻"], print_reaction_details ANION_REACTIONS "CO₃²⁻"
              (pr "-> CO₃²⁻ confirmed: CO₂ gas detected" t4))
          else ([], t4)
        let t5 := prs ["\n2. Testing for S²⁻:",
          "a. Note smell (rotten eggs)",
          "b. Bring moist lead acetate paper to mouth of test tube"] carb.2
        match get_user_input "Does paper turn black? (y/n): " ["y", "n"] t5 with
        | none => none
        | some (b2, t6) =>
          let sulf : List String × Trace :=
            if b2 == "y" then
              (["S²⁻"], print_reaction_details ANION_REACTIONS "S²⁻"
                (pr "-> S²⁻ confirmed: PbS formation" t6))
            else ([], t6)
          let t7 := prs ["\n3. Testing for NO₂⁻:",
            "a. Observe gas color (brown fumes)"] sulf.2
          match get_user_input "Are brown fumes visible? (y/n): " ["y", "n"] t7 with
          | none => none
          | some (b3, t8) =>
            let nitr : List String × Trace :=
              if b3 == "y" then
                (["NO₂⁻"], print_reaction_details ANION_REACTIONS "NO₂⁻"
                  (pr "-> NO₂⁻ confirmed: NO₂ gas detected" t8))
              else ([], t8)
            let t9 := prs ["\n4. Testing for CH₃COO⁻:",
              "a. Note vinegar-like smell"] nitr.2
            match get_user_input "Is there a distinct vinegar odor? (y/n): " ["y", "n"] t9 with
            | none => none
            | some (b4, t10) =>
              match (if b4 == "y" then
                  (let t11 := pr "b. Confirm with ferric chloride test" t10
                   match get_user_input "Add FeCl₃. Does solution turn red-brown? (y/n): "
                       ["y", "n"] t11 with
                   | none => none
                   | some (b5, t12) =>
                     if b5 == "y" then
                       some ((["CH₃COO⁻"] : List String),
                         print_reaction_details ANION_REACTIONS "CH₃COO⁻"
                           (pr "-> CH₃COO⁻ confirmed: Smell and color change" t12))
                     else some ([], t12))
                else some ([], t10)) with
              | none => none
              | some (dAc, t13) =>
                some (carb.1 ++ sulf.1 ++ nitr.1 ++ dAc, t13)
    else
      some ([], pr "No Group I anions detected." t2)

/-- `AnionAnalyzer.test_group_i` including the trailing `extend`. -/
def anionTestGroupI : List String → Trace → Option StepResult :=
  extendRun anionTestGroupI_core

/-- Body of `AnionAnalyzer.test_group_ii` (v1). -/
def anionTestGroupII_core (selfIons : List String) (t0 : Trace) :
    Option (List String × Trace) :=
  let t1 := prs ["CAUTION: Perform in fume hood. Use small quantities.",
    "Procedure: Take 1mL test solution, add 1mL conc. H₂SO₄ carefully"]
    (display_header "GROUP II: Conc. H₂SO₄ Tests" t0)
  match get_user_input "Are colored fumes evolved? (y/n): " ["y", "n"] t1 with
  | none => none
  | some (a1, t2) =>
    if a1 == "y" then
      let t3 := prs ["\nObserve carefully:",
        "1. Color of fumes",
        "2. Odor characteristics",
        "3. Precipitate behavior with AgNO₃",
        "\n1. Testing for Cl⁻:",
        "a. Note white fumes (HCl)",
        "b. Perform AgNO₃ test on original solution"] t2
      match get_user_input "White precipitate soluble in NH₄OH? (y/n): " ["y", "n"] t3 with
      | none => none
      | some (b1, t4) =>
        let chl : List String × Trace :=
          if b1 == "y" then
            (["Cl⁻"], print_reaction_details ANION_REACTIONS "Cl⁻"
              (pr "-> Cl⁻ confirmed: AgCl behavior" t4))
          else ([], t4)
        let t5 := prs ["\n2. Testing for Br⁻:",
          "a. Note yellow-brown fumes (Br₂)",
          "b. Perform AgNO₃ test on original solution"] chl.2
        match get_user_input "Pale yellow precipitate partially soluble in NH₄OH? (y/n): "
            ["y", "n"] t5 with
        | none => none
        | some (b2, t6) =>
          let brm : List String × Trace :=
            if b2 == "y" then
              (["Br⁻"], print_reaction_details ANION_REACTIONS "Br⁻"
                (pr "-> Br⁻ confirmed: AgBr behavior" t6))
            else ([], t6)
          let t7 := prs ["\n3. Testing for I⁻:",
            "a. Note violet fumes (I₂)",
            "b. Perform AgNO₃ test on original solution"] brm.2
          match get_user_input "Yellow precipitate insoluble in NH₄OH? (y/n): "
              ["y", "n"] t7 with
          | none => none
          | some (b3, t8) =>
            let iod : List String × Trace :=
              if b3 == "y" then
                (["I⁻"], print_reaction_details ANION_REACTIONS "I⁻"
                  (pr "-> I⁻ confirmed: AgI behavior" t8))
              else ([], t8)
            let t9 := prs ["\n4. Testing for NO₃⁻:",
              "a. Note brown fumes (NO₂)",
              "b. Perform brown ring test:",
              "   - Add FeSO₄ solution to test tube",
              "   - Carefully add conc. H₂SO₄ down the side"] iod.2
            match get_user_input "Brown ring at interface? (y/n): " ["y", "n"] t9 with
            | none => none
            | some (b4, t10) =>
              let nit : List String × Trace :=
                if b4 == "y" then
                  (["NO₃⁻"], print_reaction_details ANION_REACTIONS "NO₃⁻"
                    (pr "-> NO₃⁻ confirmed: Brown ring test" t10))
                else ([], t10)
              some (chl.1 ++ brm.1 ++ iod.1 ++ nit.1, nit.2)
    else
      some ([], pr "No Group II anions detected." t2)

/-- `AnionAnalyzer.test_group_ii` including the trailing `extend`. -/
def anionTestGroupII : List String → Trace → Option StepResult :=
  extendRun anionTestGroupII_core

/-- Body of `AnionAnalyzer.test_group_iii` (v1).  Like cation Group VI it has
no gating question; the sulfate, phosphate and borate tests always run. -/
def anionTestGroupIII_core (selfIons : List String) (t0 : Trace) :
    Option (List String × Trace) :=
  let t1 := prs ["\n1. Testing for SO₄²⁻:",
    "a. Acidify test solution with dilute HCl",
    "b. Add BaCl₂ solution"]
    (display_header "GROUP III: Specific Tests" t0)
  match get_user_input "White precipitate forms? (y/n): " ["y", "n"] t1 with
  | none => none
  | some (a1, t2) =>
    match (if a1 == "y" then
        (let t3 := pr "c. Test precipitate solubility in conc. HCl" t2
         match get_user_input "Precipitate insoluble? (y/n): " ["y", "n"] t3 with
         | none => none
         | some (a2, t4) =>
           if a2 == "y" then
             some ((["SO₄²⁻"] : List String),
               print_reaction_details ANION_REACTIONS "SO₄²⁻"
                 (pr "-> SO₄²⁻ confirmed: BaSO₄ precipitation" t4))
           else some ([], t4))
      else some ([], t2)) with
  | none => none
  | some (dS, t5) =>
    let t6 := prs ["\n2. Testing for PO₄³⁻:",
      "a. Add conc. HNO₃ and ammonium molybdate",
      "b. Warm gently (60°C water bath)"] t5
    match get_user_input "Yellow precipitate forms? (y/n): " ["y", "n"] t6 with
    | none => none
    | some (b1, t7) =>
      let pho : List String × Trace :=
        if b1 == "y" then
          (["PO₄³⁻"], print_reaction_details ANION_REACTIONS "PO₄³⁻"
            (pr "-> PO₄³⁻ confirmed: Ammonium phosphomolybdate" t7))
        else ([], t7)
      let t8 := prs ["\n3. Testing for BO₃³⁻:",
        "a. Mix sample with methanol and conc. H₂SO₄",
        "b. Ignite carefully (flame test)"] pho.2
      match get_user_input "Green-edged flame observed? (y/n): " ["y", "n"] t8 with
      | none => none
      | some (b2, t9) =>
        let bor : List String × Trace :=
          if b2 == "y" then
            (["BO₃³⁻"], print_reaction_details ANION_REACTIONS "BO₃³⁻"
              (pr "-> BO₃³⁻ confirmed: Green flame test" t9))
          else ([], t9)
        let detected := dS ++ pho.1 ++ bor.1
        if detected.isEmpty then
          some (detected, pr "No Group III anions detected." bor.2)
        else
          some (detected, bor.2)

/-- `AnionAnalyzer.test_group_iii` including the trailing `extend`. -/
def anionTestGroupIII : List String → Trace → Option StepResult :=
  extendRun anionTestGroupIII_core

/-- Code-point lexicographic comparison on character lists: the string order
used by Python `sorted`. -/
def strLeB : List Char → List Char → Bool
  | [], _ => true
  | _ :: _, [] => false
  | a :: as, b :: bs =>
    if a.toNat < b.toNat then true
    else if b.toNat < a.toNat then false
    else strLeB as bs

/-- Code-point lexicographic `≤` on strings (the order of Python `sorted`). -/
def pyLe (a b : String) : Bool := strLeB a.data b.data

/-- Ordered insertion w.r.t. `pyLe`.  After `List.dedup` the elements are
distinct, so insertion sort returns the same list as Python `sorted`. -/
def insertOrdered (x : String) : List String → List String
  | [] => [x]
  | y :: ys => if pyLe x y then x :: y :: ys else y :: insertOrdered x ys

/-- Insertion sort w.r.t. `pyLe`. -/
def sortStrings : List String → List String
  | [] => []
  | x :: xs => insertOrdered x (sortStrings xs)

/-- `sorted(set(l))` for a list of ion symbols. -/
def pySortedSet (l : List String) : List String := sortStrings l.dedup

/-- The per-ion block written by `save_results` for one detected ion (empty
when the ion is missing from the reaction table). -/
def reportIonBlock (reactions : List (String × ReactionData)) (ion : String) : String :=
  match dictFind reactions ion with
  | some data =>
    ion ++ ":\n" ++ "Test Method: " ++ data.test ++ "\n" ++
      "Reaction: " ++ data.reaction ++ "\n" ++ "Principle: " ++ data.reason ++ "\n\n"
  | none => ""

/-- The body written after the header by `save_results` (v1): either the
literal "No ions detected." line, or the `Detected ...` line followed by the
per-ion blocks of the sorted unique ions. -/
def reportBody (ion_type : String) (reactions : List (String × ReactionData))
    (detected_ions : List String) : String :=
  if detected_ions.isEmpty then "No ions detected.\n"
  else
    let unique_ions := pySortedSet detected_ions
    "Detected " ++ ion_type ++ "s: " ++ String.intercalate ", " unique_ions ++ "\n\n" ++
      String.join (unique_ions.map (reportIonBlock reactions))

/-- Full file content written by `ChemicalAnalyzer.save_results` (v1): title
line, separator line, then the body. -/
def save_results_content (ion_type : String) (reactions : List (String × ReactionData))
    (detected_ions : List String) : String :=
  "Qualitative Analysis Results - " ++ pyUpper ion_type ++ "\n" ++
    (sepLine ++ "\n") ++ reportBody ion_type reactions detected_ions

/-- Outcome of the file write attempted by `save_results`. -/
inductive WriteOutcome where
  | ok
  | ioError (msg : String)
deriving Repr, DecidableEq

/-- `ChemicalAnalyzer.save_results` (v1): on a successful write it produces
the file and returns `True`; on `IOError` the handler prints the error line
and returns `False`.  The method only reads `detected_ions`, so the analyzer
state it returns is the one it was given in both cases. -/
def save_results (ion_type : String) (reactions : List (String × ReactionData))
    (detected_ions : List String) (timestamp : String) (w : WriteOutcome) :
    Bool × List String × Option String × List String :=
  let filename := ion_type ++ "_analysis_" ++ timestamp ++ ".txt"
  match w with
  | .ok =>
    (true, detected_ions, some (save_results_content ion_type reactions detected_ions),
      ["\nResults saved to " ++ filename])
  | .ioError msg =>
    (false, detected_ions, none, ["Error saving results: " ++ msg])

/-- One record of the back-up scripts' reaction tables (no `group` field). -/
structure BReactionData where
  test : String
  reaction : String
  reason : String
deriving Repr, DecidableEq

/-- Dict lookup for the back-up tables (same last-binding-wins semantics). -/
def bDictFind (d : List (String × BReactionData)) (k : String) : Option BReactionData :=
  (d.reverse.find? (fun p => p.1 == k)).map (·.2)

/-- `ANION_REACTIONS` of back-up/anion_qualitative_analysis.py. -/
def BACKUP_ANION_REACTIONS : List (String × BReactionData) := [
  ("CO₃²⁻", ⟨"Effervescence + lime water",
    "CO₃²⁻ + 2H⁺ → CO₂↑ + H₂O\nCO₂ + Ca(OH)₂ → CaCO₃↓ (milky)",
    "Carbonates release CO₂ gas that forms insoluble calcium carbonate (Ksp = 4.5×10⁻⁹)"⟩),
  ("S²⁻", ⟨"Lead acetate paper",
    "S²⁻ + Pb²⁺ → PbS↓ (black, Ksp = 9.0×10⁻²⁹)",
    "Extremely low solubility allows detection at ppm levels"⟩),
  ("NO₂⁻", ⟨"Brown fumes with acid",
    "2NO₂⁻ + 2H⁺ → NO₂↑ (brown) + NO↑ + H₂O",
    "Nitrous acid decomposition produces characteristic brown gas"⟩),
  ("CH₃COO⁻", ⟨"Vinegar smell",
    "CH₃COO⁻ + H⁺ → CH₃COOH↑ (pKa = 4.76)",
    "Volatile acetic acid detected by odor"⟩),
  ("Cl⁻", ⟨"AgNO₃ precipitation",
    "Ag⁺ + Cl⁻ → AgCl↓ (white, Ksp = 1.8×10⁻¹⁰)\nAgCl + 2NH₃ → [Ag(NH₃)₂]⁺ (soluble)",
    "Distinctive solubility behavior in ammonia"⟩),
  ("Br⁻", ⟨"AgNO₃ precipitation",
    "Ag⁺ + Br⁻ → AgBr↓ (pale yellow, Ksp = 5.0×10⁻¹³)",
    "Intermediate solubility product distinguishes from other halides"⟩),
  ("I⁻", ⟨"AgNO₃ precipitation",
    "Ag⁺ + I⁻ → AgI↓ (yellow, Ksp = 8.5×10⁻¹⁷)",
    "Most insoluble silver halide"⟩),
  ("NO₃⁻", ⟨"Brown ring test",
    "NO₃⁻ + 3Fe²⁺ + 4H⁺ → NO↑ + 3Fe³⁺ + 2H₂O\nFe²⁺ + NO → [Fe(NO)]²⁺ (brown ring)",
    "Nitric oxide complexation with Fe²⁺ (E° = +0.96V)"⟩),
  ("SO₄²⁻", ⟨"BaCl₂ in acid",
    "Ba²⁺ + SO₄²⁻ → BaSO₄↓ (white, Ksp = 1.1×10⁻¹⁰)",
    "Kinetically inert precipitate resistant to acid dissolution"⟩),
  ("PO₄³⁻", ⟨"Ammonium molybdate",
    "PO₄³⁻ + 12MoO₄²⁻ + 3NH₄⁺ + 24H⁺ → (NH₄)₃PO₄·12MoO₃↓ (yellow)",
    "Heteropoly acid formation under acidic conditions"⟩),
  ("BO₃³⁻", ⟨"Flame test",
    "BO₃³⁻ + H₂SO₄ + CH₃CH₂OH → B(OCH₂CH₃)₃ (green flame)",
    "Volatile boron ester produces characteristic green color"⟩)]

/-- `print_reaction_explanation` of the back-up anion script. -/
def backup_print_reaction_explanation (ion : String) (t : Trace) : Trace :=
  match bDictFind BACKUP_ANION_REACTIONS ion with
  | some data => prs ["\nReaction Details for " ++ ion ++ ":",
      "Test Method: " ++ data.test,
      "Chemical Equation:\n" ++ data.reaction,
      "Scientific Principle: " ++ data.reason] t
  | none => pr ("\nNote: No reaction details available for " ++ ion) t

/-- `test_group_i` of back-up/anion_qualitative_analysis.py: after the gating
gas question, one gas-type answer selects a single branch of the `elif`
chain. -/
def backupAnionTestGroupI (t0 : Trace) : Option (List String × Trace) :=
  let t1 := pr "\n=== GROUP I: Dilute H₂SO₄ Tests ===" t0
  match get_user_input "Add dilute H₂SO₄. Gas evolved? (y/n): " ["y", "n"] t1 with
  | none => none
  | some (a1, t2) =>
    if a1 == "y" then
      match get_user_input "Describe the gas (effervescence/rotten egg/brown/vinegar): "
          ["effervescence", "rotten egg", "brown", "vinegar"] t2 with
      | none => none
      | some (gas_type, t3) =>
        if gas_type == "effervescence" then
          match get_user_input "Pass gas through lime water. White precipitate? (y/n): "
              ["y", "n"] t3 with
          | none => none
          | some (b, t4) =>
            if b == "y" then
              some (["CO₃²⁻"], backup_print_reaction_explanation "CO₃²⁻"
                (pr "-> CO₃²⁻ confirmed: Effervescence and white precipitate" t4))
            else some ([], t4)
        else if gas_type == "rotten egg" then
          match get_user_input "Expose lead acetate paper. Turns black? (y/n): "
              ["y", "n"] t3 with
          | none => none
          | some (b, t4) =>
            if b == "y" then
              some (["S²⁻"], backup_print_reaction_explanation "S²⁻"
                (pr "-> S²⁻ confirmed: Rotten egg smell and black precipitate" t4))
            else some ([], t4)
        else if gas_type == "brown" then
          some (["NO₂⁻"], backup_print_reaction_explanation "NO₂⁻"
            (pr "-> NO₂⁻ confirmed: Brown fumes" t3))
        else if gas_type == "vinegar" then
          some (["CH₃COO⁻"], backup_print_reaction_explanation "CH₃COO⁻"
            (pr "-> CH₃COO⁻ confirmed: Vinegar smell" t3))
        else
          some ([], t3)
    else
      some ([], t2)

/-- `confirmatory_test` object of the v2 JSON database. -/
structure ConfirmatoryTest where
  reagent : String
  observation : String
  equation : String
  explanation : String
deriving Repr, DecidableEq

/-- One ion entry of the v2 JSON database. -/
structure IonData where
  name : String
  confirmatory_test : ConfirmatoryTest
deriving Repr, DecidableEq

/-- One group entry of the v2 JSON database. -/
structure GroupData where
  title : String
  description : String
  separation_reagent : String
  ions : List (String × IonData)
deriving Repr, DecidableEq

/-- The whole v2 JSON document: `cations` and `anions` map group names to
groups; `metadata` maps strings to strings. -/
structure Database where
  cations : List (String × GroupData)
  anions : List (String × GroupData)
  metadata : List (String × String)
deriving Repr, DecidableEq

/-- Keys of an association list (dict key view, in insertion order). -/
def dKeys {α : Type} (d : List (String × α)) : List String := d.map Prod.fst

/-- One key-value assignment of Python `dict.update`: an existing key is
overwritten in place, a new key is appended. -/
def dUpdStep {α : Type} (acc : List (String × α)) (p : String × α) :
    List (String × α) :=
  if acc.any (fun q => q.1 == p.1) then
    acc.map (fun q => if q.1 == p.1 then p else q)
  else acc ++ [p]

/-- Python `dict.update(d2)` on association lists. -/
def dUpdate {α : Type} (d1 d2 : List (String × α)) : List (String × α) :=
  d2.foldl dUpdStep d1

/-- The `all_reactions` flattening of `ChemicalAnalyzer.__init__` (v2):
`for group in self.groups.values(): self.all_reactions.update(group["ions"])`
starting from the empty dict. -/
def allReactionsOf (groups : List (String × GroupData)) : List (String × IonData) :=
  groups.foldl (fun acc g => dUpdate acc g.2.ions) []

/-- The `self.groups` selection of `ChemicalAnalyzer.__init__` (v2):
`chemical_db["cations"]` when `ion_type == "cation"`, else
`chemical_db["anions"]`. -/
def analyzerGroups (db : Database) (ion_type : String) : List (String × GroupData) :=
  if ion_type == "cation" then db.cations else db.anions

/-- The `all_reactions` dict of a freshly constructed v2 analyzer. -/
def analyzerAllReactions (db : Database) (ion_type : String) : List (String × IonData) :=
  allReactionsOf (analyzerGroups db ion_type)

/-- `ChemicalAnalyzer.print_reaction_details` of v2. -/
def v2_print_reaction_details (allR : List (String × IonData)) (ion : String)
    (t : Trace) : Trace :=
  match (allR.reverse.find? (fun p => p.1 == ion)).map (·.2) with
  | some data => prs ["\nReaction Details for " ++ ion ++ ":",
      "Test Method: " ++ data.confirmatory_test.reagent,
      "Observation: " ++ data.confirmatory_test.observation,
      "Chemical Equation:\n" ++ data.confirmatory_test.equation,
      "Scientific Principle: " ++ data.confirmatory_test.explanation] t
  | none => pr ("\nNo data available for " ++ ion) t

/-- The per-ion loop of v2 `test_group`: for each ion of the group (in dict
order) print the reagent and observation, ask the yes/no question, and append
the ion on "y". -/
def v2ConfirmLoop (allR : List (String × IonData)) :
    List (String × IonData) → Trace → Option (List String × Trace)
  | [], t => some ([], t)
  | (ion, data) :: rest, t =>
    let t1 := prs ["\nTesting for " ++ ion ++ ":",
      "Reagent: " ++ data.confirmatory_test.reagent,
      "Expected Observation: " ++ data.confirmatory_test.observation] t
    match get_user_input "Did you observe this result? (y/n): " ["y", "n"] t1 with
    | none => none
    | some (a, t2) =>
      if a == "y" then
        let t3 := v2_print_reaction_details allR ion t2
        match v2ConfirmLoop allR rest t3 with
        | none => none
        | some (ds, t4) => some (ion :: ds, t4)
      else
        match v2ConfirmLoop allR rest t2 with
        | none => none
        | some (ds, t4) => some (ds, t4)

/-- Shared body of v2 `test_group` (cation and anion differ only in the gate
prompt). -/
def v2TestGroupWith (gatePrompt : String) (allR : List (String × IonData))
    (group : GroupData) (t0 : Trace) : Option (List String × Trace) :=
  let t1 := prs [group.description,
    "\nSeparation Reagent: " ++ group.separation_reagent,
    "\nPossible ions in this group: " ++ String.intercalate ", " (dKeys group.ions)]
    (display_header group.title t0)
  match get_user_input gatePrompt ["y", "n"] t1 with
  | none => none
  | some (a, t2) =>
    if a == "y" then
      let t3 := pr "\nPerforming confirmatory tests..." t2
      v2ConfirmLoop allR group.ions t3
    else
      some ([], t2)

/-- Body of `CationAnalyzer.test_group` (v2). -/
def v2CationTestGroup_core (allR : List (String × IonData)) (group : GroupData)
    (selfIons : List String) (t : Trace) : Option (List String × Trace) :=
  v2TestGroupWith "\nDid precipitation occur? (y/n): " allR group t

/-- Body of `AnionAnalyzer.test_group` (v2). -/
def v2AnionTestGroup_core (allR : List (String × IonData)) (group : GroupData)
    (selfIons : List String) (t : Trace) : Option (List String × Trace) :=
  v2TestGroupWith "\nDid reaction occur? (y/n): " allR group t

/-- `CationAnalyzer.test_group` (v2) including the trailing `extend`. -/
def v2CationTestGroup (allR : List (String × IonData)) (group : GroupData) :
    List String → Trace → Option StepResult :=
  extendRun (v2CationTestGroup_core allR group)

/-- `AnionAnalyzer.test_group` (v2) including the trailing `extend`. -/
def v2AnionTestGroup (allR : List (String × IonData)) (group : GroupData) :
    List String → Trace → Option StepResult :=
  extendRun (v2AnionTestGroup_core allR group)

/-- The confirmatory sub-branches of cation Group II whose guard holds for a
given precipitate color, in source order (guards of v1 lines 462, 473, 483
and 493; the lead guard also requires `"Pb²⁺" not in self.detected_ions`). -/
def gII_branchIons (color : String) (selfIons : List String) : List String :=
  (if color == "yellow" then ["As³⁺/⁵⁺"] else []) ++
  (if color == "black" then ["Cu²⁺"] else []) ++
  (if color == "black" || color == "brown" then ["Bi³⁺"] else []) ++
  (if color == "white" && !(selfIons.contains "Pb²⁺") then ["Pb²⁺"] else [])

/-- The confirmatory sub-branches of cation Group III whose guard holds for a
given precipitate color (guards of v1 lines 521, 531 and 541). -/
def gIII_branchIons (color : String) : List String :=
  (if color == "red-brown" then ["Fe³⁺"] else []) ++
  (if color == "white" then ["Al³⁺"] else []) ++
  (if color == "green" then ["Cr³⁺"] else [])

/-- The confirmatory sub-branches of cation Group IV whose guard holds for a
given precipitate color (guards of v1 lines 571, 583, 593 and 603; the nickel
and cobalt branches are both guarded by `color == 'black'`). -/
def gIV_branchIons (color : String) : List String :=
  (if color == "white" then ["Zn²⁺"] else []) ++
  (if color == "flesh-pink" then ["Mn²⁺"] else []) ++
  (if color == "black" then ["Ni²⁺"] else []) ++
  (if color == "black" then ["Co²⁺"] else [])

/-- The confirmatory sub-branches of cation Group V whose guard holds for a
given flame color (guards of v1 lines 634, 639 and 648; the barium branch
appends directly without a further question). -/
def gV_branchIons (flame_color : String) : List String :=
  (if flame_color == "green" then ["Ba²⁺"] else []) ++
  (if flame_color == "red" then ["Sr²⁺"] else []) ++
  (if flame_color == "orange" then ["Ca²⁺"] else [])

theorem strLeB_total (as : List Char) : ∀ bs, strLeB as bs = true ∨ strLeB bs as = true := by
  induction as with
  | nil => intro bs; exact Or.inl rfl
  | cons a as ih =>
    intro bs
    cases bs with
    | nil => exact Or.inr rfl
    | cons b bs =>
      unfold strLeB
      rcases Nat.lt_trichotomy a.toNat b.toNat with h | h | h
      · left; simp [h]
      · have h1 : ¬ a.toNat < b.toNat := by omega
        have h2 : ¬ b.toNat < a.toNat := by omega
        simpa [h1, h2] using ih bs
      · right; simp [h]

theorem strLeB_trans : ∀ as bs cs : List Char,
    strLeB as bs = true → strLeB bs cs = true → strLeB as cs = true := by
  intro as
  induction as with
  | nil => intro bs cs _ _; rfl
  | cons a as ih =>
    intro bs cs h1 h2
    cases bs with
    | nil => simp [strLeB] at h1
    | cons b bs =>
      cases cs with
      | nil => simp [strLeB] at h2
      | cons c cs =>
        unfold strLeB at h1 h2 ⊢
        by_cases hab : a.toNat < b.toNat
        · by_cases hbc : b.toNat < c.toNat
          · simp [show a.toNat < c.toNat by omega]
          · by_cases hcb : c.toNat < b.toNat
            · simp [hbc, hcb] at h2
            · simp [show a.toNat < c.toNat by omega]
        · by_cases hba : b.toNat < a.toNat
          · simp [hab, hba] at h1
          · by_cases hbc : b.toNat < c.toNat
            · simp [show a.toNat < c.toNat by omega]
            · by_cases hcb : c.toNat < b.toNat
              · simp [hbc, hcb] at h2
              · have h1' : strLeB as bs = true := by simpa [hab, hba] using h1
                have h2' : strLeB bs cs = true := by simpa [hbc, hcb] using h2
                have hac1 : ¬ a.toNat < c.toNat := by omega
                have hac2 : ¬ c.toNat < a.toNat := by omega
                simpa [hac1, hac2] using ih bs cs h1' h2'

theorem pyLe_total (a b : String) : pyLe a b = true ∨ pyLe b a = true :=
  strLeB_total a.data b.data

theorem pyLe_trans {a b c : String} (h1 : pyLe a b = true) (h2 : pyLe b c = true) :
    pyLe a c = true :=
  strLeB_trans a.data b.data c.data h1 h2

theorem perm_insertOrdered (x : String) (l : List String) :
    List.Perm (insertOrdered x l) (x :: l) := by
  induction l with
  | nil => exact List.Perm.refl _
  | cons y ys ih =>
    unfold insertOrdered
    split
    · exact List.Perm.refl _
    · exact (ih.cons y).trans (List.Perm.swap x y ys)

theorem sortStrings_perm (l : List String) : List.Perm (sortStrings l) l := by
  induction l with
  | nil => exact List.Perm.refl _
  | cons x xs ih =>
    exact ((perm_insertOrdered x (sortStrings xs)).trans (ih.cons x))

theorem mem_insertOrdered {z x : String} {l : List String} :
    z ∈ insertOrdered x l ↔ z = x ∨ z ∈ l := by
  rw [(perm_insertOrdered x l).mem_iff, List.mem_cons]

theorem sorted_insertOrdered (x : String) (l : List String)
    (h : List.Sorted (fun a b => pyLe a b = true) l) :
    List.Sorted (fun a b => pyLe a b = true) (insertOrdered x l) := by
  induction l with
  | nil => simp [insertOrdered]
  | cons y ys ih =>
    rcases List.sorted_cons.mp h with ⟨hy, hys⟩
    unfold insertOrdered
    split
    case isTrue hxy =>
      refine List.sorted_cons.mpr ⟨?_, h⟩
      intro z hz
      rcases List.mem_cons.mp hz with rfl | hz
      · exact hxy
      · exact pyLe_trans hxy (hy z hz)
    case isFalse hxy =>
      have hyx : pyLe y x = true := by
        rcases pyLe_total x y with h' | h'
        · exact absurd h' hxy
        · exact h'
      refine List.sorted_cons.mpr ⟨?_, ih hys⟩
      intro z hz
      rcases mem_insertOrdered.mp hz with rfl | hz
      · exact hyx
      · exact hy z hz

theorem sorted_sortStrings (l : List String) :
    List.Sorted (fun a b => pyLe a b = true) (sortStrings l) := by
  induction l with
  | nil => simp [sortStrings]
  | cons x xs ih => exact sorted_insertOrdered x (sortStrings xs) ih

theorem pySortedSet_nodup (l : List String) : (pySortedSet l).Nodup :=
  ((sortStrings_perm l.dedup).nodup_iff).mpr (List.nodup_dedup l)

theorem pySortedSet_sorted (l : List String) :
    List.Sorted (fun a b => pyLe a b = true) (pySortedSet l) :=
  sorted_sortStrings l.dedup

theorem pySortedSet_mem (l : List String) (a : String) :
    a ∈ pySortedSet l ↔ a ∈ l :=
  ((sortStrings_perm l.dedup).mem_iff).trans List.mem_dedup

theorem dKeys_dUpdStep {α : Type} (acc : List (String × α)) (p : String × α) (k : String) :
    k ∈ dKeys (dUpdStep acc p) ↔ k ∈ dKeys acc ∨ k = p.1 := by
  unfold dUpdStep
  split
  case isTrue hany =>
    have hkeys : dKeys (acc.map (fun q => if q.1 == p.1 then p else q)) = dKeys acc := by
      unfold dKeys
      rw [List.map_map]
      apply List.map_congr_left
      intro q _
      by_cases hq : (q.1 == p.1) = true
      · simp only [Function.comp_apply, hq, if_true]
        exact (eq_of_beq hq).symm
      · have hne : ¬ q.1 = p.1 := fun he => hq (by simp [he])
        simp [hne]
    rw [hkeys]
    have hp1 : p.1 ∈ dKeys acc := by
      rcases List.any_eq_true.mp hany with ⟨q, hq, hbeq⟩
      have : q.1 = p.1 := eq_of_beq hbeq
      exact this ▸ List.mem_map_of_mem Prod.fst hq
    constructor
    · exact Or.inl
    · rintro (h | rfl)
      · exact h
      · exact hp1
  case isFalse =>
    unfold dKeys
    simp [List.map_append]
theorem dKeys_dUpdate {α : Type} (k : String) :
    ∀ (d2 d1 : List (String × α)),
      k ∈ dKeys (dUpdate d1 d2) ↔ k ∈ dKeys d1 ∨ k ∈ dKeys d2 := by
  intro d2
  induction d2 with
  | nil => intro d1; simp [dUpdate, dKeys]
  | cons p d2 ih =>
    intro d1
    have hstep : dUpdate d1 (p :: d2) = dUpdate (dUpdStep d1 p) d2 := rfl
    rw [hstep, ih, dKeys_dUpdStep]
    simp only [dKeys, List.map_cons, List.mem_cons]
    tauto

theorem dKeys_allReactionsOf (groups : List (String × GroupData)) (k : String) :
    k ∈ dKeys (allReactionsOf groups) ↔ ∃ g ∈ groups, k ∈ dKeys g.2.ions := by
  suffices h : ∀ acc : List (String × IonData),
      k ∈ dKeys (groups.foldl (fun a g => dUpdate a g.2.ions) acc) ↔
        k ∈ dKeys acc ∨ ∃ g ∈ groups, k ∈ dKeys g.2.ions by
    simpa [allReactionsOf, dKeys] using h []
  induction groups with
  | nil => intro acc; simp
  | cons g gs ih =>
    intro acc
    rw [List.foldl_cons, ih, dKeys_dUpdate]
    simp only [List.mem_cons]
    constructor
    · rintro ((h | h) | ⟨g', hg', hk⟩)
      · exact Or.inl h
      · exact Or.inr ⟨g, Or.inl rfl, h⟩
      · exact Or.inr ⟨g', Or.inr hg', hk⟩
    · rintro (h | ⟨g', (rfl | hg'), hk⟩)
      · exact Or.inl (Or.inl h)
      · exact Or.inl (Or.inr hk)
      · exact Or.inr ⟨g', hg', hk⟩

theorem askGo_valid (prompt : String) (valid : List String) :
    ∀ (q ps out : List String) (a : String) (t' : Trace),
      askGo prompt valid q ps out = some (a, t') → a ∈ valid := by
  intro q
  induction q with
  | nil => intro ps out a t' h; exact Option.noConfusion h
  | cons x rest ih =>
    intro ps out a t' h
    unfold askGo at h
    lift_lets at h
    extract_lets at h
    split at h
    case isTrue hc =>
      simp only [Option.some.injEq, Prod.mk.injEq] at h
      rcases h with ⟨rfl, _⟩
      simpa using hc
    case isFalse => exact ih _ _ _ _ h

theorem get_user_input_valid (prompt : String) (valid : List String) (t : Trace)
    (a : String) (t' : Trace) (h : get_user_input prompt valid t = some (a, t')) :
    a ∈ valid :=
  askGo_valid prompt valid t.queue t.prompts t.output a t' h

theorem gII_arsenicBlock_detected (t : Trace) (d : List String) (t' : Trace)
    (h : gII_arsenicBlock t = some (d, t')) : d = [] ∨ d = ["As³⁺/⁵⁺"] := by
  unfold gII_arsenicBlock at h
  lift_lets at h
  extract_lets at h
  split at h
  · exact Option.noConfusion h
  · split at h
    · lift_lets at h
      extract_lets at h
      split at h
      · exact Option.noConfusion h
      · split at h
        · simp only [Option.some.injEq, Prod.mk.injEq] at h
          exact Or.inr h.1.symm
        · simp only [Option.some.injEq, Prod.mk.injEq] at h
          exact Or.inl h.1.symm
    · simp only [Option.some.injEq, Prod.mk.injEq] at h
      exact Or.inl h.1.symm

theorem gII_copperBlock_detected (t : Trace) (d : List String) (t' : Trace)
    (h : gII_copperBlock t = some (d, t')) : d = [] ∨ d = ["Cu²⁺"] := by
  unfold gII_copperBlock at h
  lift_lets at h
  extract_lets at h
  split at h
  · exact Option.noConfusion h
  · split at h
    · simp only [Option.some.injEq, Prod.mk.injEq] at h
      exact Or.inr h.1.symm
    · simp only [Option.some.injEq, Prod.mk.injEq] at h
      exact Or.inl h.1.symm

theorem gII_bismuthBlock_detected (t : Trace) (d : List String) (t' : Trace)
    (h : gII_bismuthBlock t = some (d, t')) : d = [] ∨ d = ["Bi³⁺"] := by
  unfold gII_bismuthBlock at h
  lift_lets at h
  extract_lets at h
  split at h
  · exact Option.noConfusion h
  · split at h
    · simp only [Option.some.injEq, Prod.mk.injEq] at h
      exact Or.inr h.1.symm
    · simp only [Option.some.injEq, Prod.mk.injEq] at h
      exact Or.inl h.1.symm

theorem gII_core_no_lead (selfIons : List String) (hPb : "Pb²⁺" ∈ selfIons)
    (t : Trace) (d : List String) (t' : Trace)
    (h : cationTestGroupII_core selfIons t = some (d, t')) : "Pb²⁺" ∉ d := by
  have hc : selfIons.contains "Pb²⁺" = true := by simpa using hPb
  unfold cationTestGroupII_core at h
  lift_lets at h
  extract_lets at h
  split at h
  · exact Option.noConfusion h
  · split at h
    · lift_lets at h
      extract_lets at h
      split at h
      · exact Option.noConfusion h
      · lift_lets at h
        extract_lets at h
        split at h
        · exact Option.noConfusion h
        next d1 t6 heq1 =>
          split at h
          · exact Option.noConfusion h
          next d2 t7 heq2 =>
            split at h
            · exact Option.noConfusion h
            next d3 t8 heq3 =>
              split at h
              · exact Option.noConfusion h
              next d4 t9 heq4 =>
                have hd1 : "Pb²⁺" ∉ d1 := by
                  split at heq1
                  · rcases gII_arsenicBlock_detected _ _ _ heq1 with rfl | rfl <;> decide
                  · simp only [Option.some.injEq, Prod.mk.injEq] at heq1
                    rw [← heq1.1]
                    decide
                have hd2 : "Pb²⁺" ∉ d2 := by
                  split at heq2
                  · rcases gII_copperBlock_detected _ _ _ heq2 with rfl | rfl <;> decide
                  · simp only [Option.some.injEq, Prod.mk.injEq] at heq2
                    rw [← heq2.1]
                    decide
                have hd3 : "Pb²⁺" ∉ d3 := by
                  split at heq3
                  · rcases gII_bismuthBlock_detected _ _ _ heq3 with rfl | rfl <;> decide
                  · simp only [Option.some.injEq, Prod.mk.injEq] at heq3
                    rw [← heq3.1]
                    decide
                have hd4 : d4 = [] := by
                  rw [hc] at heq4
                  simp only [Bool.not_true, Bool.and_false, Bool.false_eq_true,
                    if_false, Option.some.injEq, Prod.mk.injEq] at heq4
                  exact heq4.1.symm
                simp only [Option.some.injEq, Prod.mk.injEq] at h
                rw [← h.1, hd4]
                simp only [List.append_nil, List.mem_append]
                rintro ((h1 | h2) | h3)
                · exact hd1 h1
                · exact hd2 h2
                · exact hd3 h3
    · simp only [Option.some.injEq, Prod.mk.injEq] at h
      rw [← h.1]
      decide

theorem extendRun_frame (core : List String → Trace → Option (List String × Trace))
    (selfIons : List String) (t : Trace) (r : StepResult)
    (h : extendRun core selfIons t = some r) : r.ions = selfIons ++ r.detected := by
  unfold extendRun at h
  cases hc : core selfIons t with
  | none => rw [hc] at h; exact Option.noConfusion h
  | some p =>
    rw [hc] at h
    simp only [Option.map_some', Option.some.injEq] at h
    subst h
    rfl

/-- C1 counterexample: with exactly the two scripted answers `["y", "y"]` the
Group I cation test of the flat-table variant does not finish — it runs out of
script because after confirming Pb²⁺ it issues the NH₄OH dissolution prompt —
while extending the script by two "n" answers completes the run with four
prompts issued in total, two of them after the second answer. -/
theorem c1_counterexample :
    cationTestGroupI [] (mkTrace ["y", "y"]) = none ∧
    (cationTestGroupI [] (mkTrace ["y", "y", "n", "n"])).map
      (fun r => (r.detected, r.trace.prompts.length)) = some (["Pb²⁺"], 4) := by
  constructor <;> decide

/-- C1 (amended): in the Group I cation test of the flat-table variant the
answers "y", "y" confirm Pb²⁺, and the procedure then continues with the
Ag⁺/Hg₂²⁺ confirmatory prompts; with the full answer sequence
`["y", "y", "n", "n"]` the detected list equals exactly `["Pb²⁺"]` after the
four listed prompts. -/
theorem c1_ok :
    (cationTestGroupI [] (mkTrace ["y", "y", "n", "n"])).map
      (fun r => (r.detected, r.trace.prompts)) =
      some (["Pb²⁺"],
        ["Did a white precipitate form? (y/n): ",
         "Does a yellow precipitate form? (y/n): ",
         "Does the precipitate dissolve completely? (y/n): ",
         "Does the precipitate turn black/gray? (y/n): "]) := by decide

/-- C2 counterexample: a single distinguishing color answer can run two
confirmatory sub-branches.  In cation Group IV the answer "black" issues both
the Ni²⁺ and the Co²⁺ confirmatory questions and can detect both ions, and in
cation Group II the answer "black" issues both the Cu²⁺ and the Bi³⁺
confirmatory questions. -/
theorem c2_counterexample :
    (cationTestGroupIV [] (mkTrace ["y", "black", "y", "y"])).map
      (fun r => (r.detected, r.trace.prompts)) =
      some (["Ni²⁺", "Co²⁺"],
        ["Did a precipitate form? (y/n): ",
         "Color? (white/flesh-pink/black): ",
         "Does a bright red precipitate form? (y/n): ",
         "Does the organic layer turn blue? (y/n): "]) ∧
    (cationTestGroupII [] (mkTrace ["y", "black", "y", "y"])).map
      (fun r => (r.detected, r.trace.prompts)) =
      some (["Cu²⁺", "Bi³⁺"],
        ["Did a precipitate form? (y/n): ",
         "Color? (black/brown/yellow/white): ",
         "Does the solution turn deep blue? (y/n): ",
         "Does a black precipitate form? (y/n): "]) := by
  constructor <;> decide

/-- C2 (amended): for every distinguishing precipitate-color or flame-color
answer of the flat-table cation group tests, at most one confirmatory
sub-branch is guarded true — except the answer "black", which triggers exactly
the Cu²⁺ and Bi³⁺ branches in Group II and exactly the Ni²⁺ and Co²⁺ branches
in Group IV. -/
theorem c2_ok (selfIons : List String) :
    gII_branchIons "yellow" selfIons = ["As³⁺/⁵⁺"] ∧
    gII_branchIons "brown" selfIons = ["Bi³⁺"] ∧
    (gII_branchIons "white" selfIons).length ≤ 1 ∧
    gII_branchIons "black" selfIons = ["Cu²⁺", "Bi³⁺"] ∧
    gIII_branchIons "red-brown" = ["Fe³⁺"] ∧
    gIII_branchIons "white" = ["Al³⁺"] ∧
    gIII_branchIons "green" = ["Cr³⁺"] ∧
    gIV_branchIons "white" = ["Zn²⁺"] ∧
    gIV_branchIons "flesh-pink" = ["Mn²⁺"] ∧
    gIV_branchIons "black" = ["Ni²⁺", "Co²⁺"] ∧
    gV_branchIons "green" = ["Ba²⁺"] ∧
    gV_branchIons "red" = ["Sr²⁺"] ∧
    gV_branchIons "orange" = ["Ca²⁺"] ∧
    gV_branchIons "none" = [] := by
  refine ⟨rfl, rfl, ?_, rfl, rfl, rfl, rfl, rfl, rfl, rfl, rfl, rfl, rfl, rfl⟩
  by_cases h : "Pb²⁺" ∈ selfIons <;> simp [gII_branchIons, h]

/-- C3 counterexample: cation Group VI has no gating question.  Answering "n"
to its first question (the NH₄⁺ ammonia test) does not end the procedure —
with only that answer the run is still waiting for input, and completing it
with "n"/"none" answers shows four prompts were issued even though the
detected list is empty (the "No Group VI cations detected." message is then
printed). -/
theorem c3_counterexample :
    cationTestGroupVI [] (mkTrace ["n"]) = none ∧
    (cationTestGroupVI [] (mkTrace ["n", "n", "none", "none"])).map
      (fun r => (r.detected, r.trace.prompts.length,
        r.trace.output.contains "No Group VI cations detected.")) =
      some ([], 4, true) := by
  constructor <;> decide

/-- C3 (amended): for every flat-table group test that begins with a gating
question — cation Groups I to V and anion Groups I and II — answering "n" to
that question yields an empty detected list, prints the corresponding
"No Group N cations/anions detected." message, and issues no further prompts
(exactly one prompt in total).  Cation Group VI and anion Group III have no
gating question. -/
theorem c3_ok (selfIons : List String) :
    (cationTestGroupI selfIons (mkTrace ["n"])).map
      (fun r => (r.detected, r.trace.prompts.length,
        r.trace.output.contains "No Group I cations detected.")) = some ([], 1, true) ∧
    (cationTestGroupII selfIons (mkTrace ["n"])).map
      (fun r => (r.detected, r.trace.prompts.length,
        r.trace.output.contains "No Group II cations detected.")) = some ([], 1, true) ∧
    (cationTestGroupIII selfIons (mkTrace ["n"])).map
      (fun r => (r.detected, r.trace.prompts.length,
        r.trace.output.contains "No Group III cations detected.")) = some ([], 1, true) ∧
    (cationTestGroupIV selfIons (mkTrace ["n"])).map
      (fun r => (r.detected, r.trace.prompts.length,
        r.trace.output.contains "No Group IV cations detected.")) = some ([], 1, true) ∧
    (cationTestGroupV selfIons (mkTrace ["n"])).map
      (fun r => (r.detected, r.trace.prompts.length,
        r.trace.output.contains "No Group V cations detected.")) = some ([], 1, true) ∧
    (anionTestGroupI selfIons (mkTrace ["n"])).map
      (fun r => (r.detected, r.trace.prompts.length,
        r.trace.output.contains "No Group I anions detected.")) = some ([], 1, true) ∧
    (anionTestGroupII selfIons (mkTrace ["n"])).map
      (fun r => (r.detected, r.trace.prompts.length,
        r.trace.output.contains "No Group II anions detected.")) = some ([], 1, true) :=
  ⟨rfl, rfl, rfl, rfl, rfl, rfl, rfl⟩

/-- C4: for every non-empty detected-ion list, the ion sequence written to a
report by `save_results` is the sorted de-duplicated view of that list: the
file content is the header followed by the `Detected ...` line and per-ion
blocks over a list `u` that has no duplicates, is sorted in code-point
lexicographic order, and contains exactly the ions of the detected list. -/
theorem c4_ok (ion_type : String) (reactions : List (String × ReactionData))
    (detected : List String) (h : detected ≠ []) :
    ∃ u : List String,
      save_results_content ion_type reactions detected =
        "Qualitative Analysis Results - " ++ pyUpper ion_type ++ "\n" ++
          (sepLine ++ "\n") ++
          ("Detected " ++ ion_type ++ "s: " ++ String.intercalate ", " u ++ "\n\n" ++
            String.join (u.map (reportIonBlock reactions))) ∧
      u.Nodup ∧
      List.Sorted (fun a b => pyLe a b = true) u ∧
      (∀ i, i ∈ u ↔ i ∈ detected) := by
  refine ⟨pySortedSet detected, ?_, pySortedSet_nodup detected,
    pySortedSet_sorted detected, pySortedSet_mem detected⟩
  have hne : detected.isEmpty = false := by
    cases detected with
    | nil => exact absurd rfl h
    | cons a l => rfl
  unfold save_results_content reportBody
  rw [hne]
  rfl

/-- C4 witness: the theorem applied to the concrete duplicated list
`["Pb²⁺", "Ag⁺", "Pb²⁺"]`. -/
theorem c4_witness :
    (["Pb²⁺", "Ag⁺", "Pb²⁺"] : List String) ≠ [] ∧
    ∃ u : List String,
      save_results_content "cation" CATION_REACTIONS ["Pb²⁺", "Ag⁺", "Pb²⁺"] =
        "Qualitative Analysis Results - " ++ pyUpper "cation" ++ "\n" ++
          (sepLine ++ "\n") ++
          ("Detected " ++ "cation" ++ "s: " ++ String.intercalate ", " u ++ "\n\n" ++
            String.join (u.map (reportIonBlock CATION_REACTIONS))) ∧
      u.Nodup ∧
      List.Sorted (fun a b => pyLe a b = true) u ∧
      (∀ i, i ∈ u ↔ i ∈ (["Pb²⁺", "Ag⁺", "Pb²⁺"] : List String)) :=
  ⟨by decide, c4_ok "cation" CATION_REACTIONS ["Pb²⁺", "Ag⁺", "Pb²⁺"] (by decide)⟩

/-- C5: when the file write of `save_results` fails with an I/O error, the
error is caught: the call returns `False`, prints the error line, writes no
file, and leaves the in-memory detected-ion list exactly as it was. -/
theorem c5_ok (ion_type : String) (reactions : List (String × ReactionData))
    (detected : List String) (timestamp msg : String) :
    save_results ion_type reactions detected timestamp (.ioError msg) =
      (false, detected, none, ["Error saving results: " ++ msg]) := rfl

/-- C6: saving with an empty detected-ion list produces a file whose content
is exactly the title line, the `"=" * 50` separator line, and the literal line
"No ions detected." — no `Detected ...` line and no per-ion blocks. -/
theorem c6_ok (ion_type : String) (reactions : List (String × ReactionData)) :
    save_results_content ion_type reactions [] =
      "Qualitative Analysis Results - " ++ pyUpper ion_type ++ "\n" ++
        (sepLine ++ "\n") ++ "No ions detected.\n" := rfl

/-- C7: in the JSON-backed variant, for every database document the key set of
the analyzer's flattened `all_reactions` dict equals the union of the `ions`
key sets over all groups of the selected top-level section. -/
theorem c7_ok (db : Database) (ion_type : String) (k : String) :
    k ∈ dKeys (analyzerAllReactions db ion_type) ↔
      ∃ g ∈ analyzerGroups db ion_type, k ∈ dKeys g.2.ions := by
  unfold analyzerAllReactions
  exact dKeys_allReactionsOf _ k

/-- C8: the Group I anion test (back-up variant, which asks the gas-type
question) on the answers `["y", "effervescence", "y"]` detects exactly
`["CO₃²⁻"]`. -/
theorem c8_ok :
    (backupAnionTestGroupI (mkTrace ["y", "effervescence", "y"])).map
      (fun p => p.1) = some ["CO₃²⁻"] := by decide

/-- C9: cation Group II depends on the state accumulated by earlier groups.
Whenever "Pb²⁺" is already in the analyzer's detected-ion list, no run of
Group II can add it again (its multiplicity is unchanged); on the "white"
precipitate color the Pb²⁺ confirmatory question is issued exactly when
"Pb²⁺" is not already present. -/
theorem c9_ok (selfIons : List String) :
    (∀ (t : Trace) (r : StepResult), "Pb²⁺" ∈ selfIons →
        cationTestGroupII selfIons t = some r →
        "Pb²⁺" ∉ r.detected ∧ r.ions.count "Pb²⁺" = selfIons.count "Pb²⁺") ∧
    ("Pb²⁺" ∈ selfIons →
      (cationTestGroupII selfIons (mkTrace ["y", "white", "y"])).map
        (fun r => (r.detected, r.trace.prompts)) =
        some ([], ["Did a precipitate form? (y/n): ",
          "Color? (black/brown/yellow/white): "])) ∧
    ("Pb²⁺" ∉ selfIons →
      (cationTestGroupII selfIons (mkTrace ["y", "white", "y"])).map
        (fun r => (r.detected, r.trace.prompts)) =
        some (["Pb²⁺"], ["Did a precipitate form? (y/n): ",
          "Color? (black/brown/yellow/white): ",
          "Does a yellow precipitate form? (y/n): "])) := by
  refine ⟨?_, ?_, ?_⟩
  · intro t r hPb hr
    unfold cationTestGroupII at hr
    unfold extendRun at hr
    cases hc : cationTestGroupII_core selfIons t with
    | none => rw [hc] at hr; exact Option.noConfusion hr
    | some p =>
      rw [hc] at hr
      simp only [Option.map_some', Option.some.injEq] at hr
      subst hr
      have hnot := gII_core_no_lead selfIons hPb t p.1 p.2 (by rw [hc])
      exact ⟨hnot, by simp [List.count_append, List.count_eq_zero.mpr hnot]⟩
  · intro hPb
    have hc : selfIons.contains "Pb²⁺" = true := by simpa using hPb
    unfold cationTestGroupII extendRun cationTestGroupII_core
    rw [hc]
    rfl
  · intro hPb
    have hc : selfIons.contains "Pb²⁺" = false := by simpa using hPb
    unfold cationTestGroupII extendRun cationTestGroupII_core
    rw [hc]
    rfl

/-- C9 witness: the theorem exercised at the concrete prior lists `["Pb²⁺"]`
and `[]` with the scripted answers `["y", "white", "y"]`. -/
theorem c9_witness :
    ("Pb²⁺" ∉ ([] : List String) ∧
      (["Pb²⁺"] : List String).count "Pb²⁺" = (["Pb²⁺"] : List String).count "Pb²⁺") ∧
    ((cationTestGroupII ["Pb²⁺"] (mkTrace ["y", "white", "y"])).map
        (fun r => (r.detected, r.trace.prompts)) =
      some ([], ["Did a precipitate form? (y/n): ",
        "Color? (black/brown/yellow/white): "])) ∧
    ((cationTestGroupII [] (mkTrace ["y", "white", "y"])).map
        (fun r => (r.detected, r.trace.prompts)) =
      some (["Pb²⁺"], ["Did a precipitate form? (y/n): ",
        "Color? (black/brown/yellow/white): ",
        "Does a yellow precipitate form? (y/n): "])) :=
  ⟨(c9_ok ["Pb²⁺"]).1 (mkTrace ["y", "white", "y"])
      ⟨[], ["Pb²⁺"], ⟨["y"],
        ["Did a precipitate form? (y/n): ", "Color? (black/brown/yellow/white): "],
        ["\n" ++ sepLine,
         pyCenter "GROUP II: H₂S in Acidic Medium (0.3M HCl)" MENU_WIDTH,
         sepLine,
         "Pass H₂S gas through the acidic solution and observe.",
         "\nObserve precipitate color:",
         "\nPerforming confirmatory tests..."]⟩⟩
      (by decide) (by decide),
    (c9_ok ["Pb²⁺"]).2.1 (by decide),
    (c9_ok []).2.2 (by decide)⟩

/-- C10: every group test preserves previously accumulated results.  Every
`test_group_*` of the flat-table variant and both generic `test_group`
methods of the JSON-backed variant are the `extendRun` wrapper over their
bodies, and whenever that wrapper completes, the analyzer's detected-ion list
afterwards equals the prior list with exactly the returned detected list
appended at the end. -/
theorem c10_ok :
    (∀ (core : List String → Trace → Option (List String × Trace))
        (selfIons : List String) (t : Trace) (r : StepResult),
        extendRun core selfIons t = some r → r.ions = selfIons ++ r.detected) ∧
    cationTestGroupI = extendRun cationTestGroupI_core ∧
    cationTestGroupII = extendRun cationTestGroupII_core ∧
    cationTestGroupIII = extendRun cationTestGroupIII_core ∧
    cationTestGroupIV = extendRun cationTestGroupIV_core ∧
    cationTestGroupV = extendRun cationTestGroupV_core ∧
    cationTestGroupVI = extendRun cationTestGroupVI_core ∧
    anionTestGroupI = extendRun anionTestGroupI_core ∧
    anionTestGroupII = extendRun anionTestGroupII_core ∧
    anionTestGroupIII = extendRun anionTestGroupIII_core ∧
    (∀ allR group, v2CationTestGroup allR group =
      extendRun (v2CationTestGroup_core allR group)) ∧
    (∀ allR group, v2AnionTestGroup allR group =
      extendRun (v2AnionTestGroup_core allR group)) :=
  ⟨extendRun_frame, rfl, rfl, rfl, rfl, rfl, rfl, rfl, rfl, rfl,
    fun _ _ => rfl, fun _ _ => rfl⟩

/-- C10 witness: the frame property exercised on a concrete Group I run with
the nonempty prior list `["Na⁺"]`. -/
theorem c10_witness :
    extendRun cationTestGroupI_core ["Na⁺"] (mkTrace ["n"]) =
      some ⟨[], ["Na⁺"], ⟨[], ["Did a white precipitate form? (y/n): "],
        ["\n" ++ sepLine, pyCenter "GROUP I: Dilute HCl Test" MENU_WIDTH, sepLine,
         "Add dilute HCl to the solution and observe.",
         "No Group I cations detected."]⟩⟩ ∧
    (["Na⁺"] : List String) = ["Na⁺"] ++ [] :=
  ⟨by decide,
    c10_ok.1 cationTestGroupI_core ["Na⁺"] (mkTrace ["n"])
      ⟨[], ["Na⁺"], ⟨[], ["Did a white precipitate form? (y/n): "],
        ["\n" ++ sepLine, pyCenter "GROUP I: Dilute HCl Test" MENU_WIDTH, sepLine,
         "Add dilute HCl to the solution and observe.",
         "No Group I cations detected."]⟩⟩ (by decide)⟩

end QualAnal
